import Mathlib

/-!
Shallow embedding of `sw-logger-rs` (`src/lib.rs`), a minimal process-wide
logging facility: two global cells (log level, log path), two setters, and a
`log` dispatcher that filters by level, formats a timestamped line, writes it
to stdout or stderr, and optionally appends it to a file.

The Rust globals become an explicit `GlobalState` that is threaded through the
operations.  The ambient effects of `log` (the wall-clock time read by
`Local::now()`, and the fallibility of opening/writing the file sink) become an
`Env` record of oracles, and the observable effects (console writes, file
appends) are returned explicitly in a `LogOutcome`.
-/

namespace SwLogger

/-- `LogLevel` from `src/lib.rs`: the process-wide verbosity threshold. -/
inductive LogLevel where
  | Verbose
  | Debug
  | Default
  | ErrorsOnly
deriving DecidableEq, BEq, Repr

/-- `LogType` from `src/lib.rs`: the category tag of a single message. -/
inductive LogType where
  | Info
  | Debug
  | Warning
  | Error
deriving DecidableEq, BEq, Repr

/-- The `fmt::Display` impl for `LogType`: canonical uppercase rendering. -/
def LogType.display : LogType → String
  | LogType.Info => "INFO"
  | LogType.Debug => "DEBUG"
  | LogType.Warning => "WARNING"
  | LogType.Error => "ERROR"

/-- The two process-wide cells `LOG_LEVEL` and `LOG_PATH` (the `lazy_static`
mutexes), modelled as an explicit state record. -/
structure GlobalState where
  level : LogLevel
  path : String
deriving DecidableEq, Repr

/-- The initial values of the two globals: `Mutex::new(LogLevel::Default)` and
`Mutex::new(String::new())`. -/
def initialState : GlobalState :=
  { level := LogLevel.Default, path := "" }

/-- `set_level`: unconditionally overwrites the stored level. -/
def set_level (level : LogLevel) (st : GlobalState) : GlobalState :=
  { st with level := level }

/-- `set_path`: unconditionally overwrites the stored default path. -/
def set_path (path : String) (st : GlobalState) : GlobalState :=
  { st with path := path }

/-- A local wall-clock instant at second precision, the data `Local::now()`
yields that `%Y-%m-%d %H:%M:%S` consumes. -/
structure Timestamp where
  year : Nat
  month : Nat
  day : Nat
  hour : Nat
  minute : Nat
  second : Nat
deriving DecidableEq, Repr

/-- Left-pad the decimal rendering of `n` with zeros to width `w`, as chrono's
numeric format specifiers do. -/
def padZeros (w : Nat) (n : Nat) : String :=
  let s := toString n
  String.mk (List.replicate (w - s.length) '0') ++ s

/-- The strftime rendering `%Y-%m-%d %H:%M:%S` used by `log`. -/
def Timestamp.format (ts : Timestamp) : String :=
  padZeros 4 ts.year ++ "-" ++ padZeros 2 ts.month ++ "-" ++ padZeros 2 ts.day
    ++ " " ++ padZeros 2 ts.hour ++ ":" ++ padZeros 2 ts.minute ++ ":"
    ++ padZeros 2 ts.second

/-- An abstract `std::io::Error`. -/
structure IOError where
  msg : String
deriving DecidableEq, Repr

/-- The two console sinks used by `println!` and `eprintln!`. -/
inductive Sink where
  | stdout
  | stderr
deriving DecidableEq, Repr

/-- Ambient effects of one `log` call: the wall clock read by `Local::now()`,
and oracles deciding whether `OpenOptions::open` and `writeln!` on a given
path fail (`none` means success). -/
structure Env where
  now : Timestamp
  openResult : String → Option IOError
  writeResult : String → Option IOError

instance {α β : Type} [DecidableEq α] [DecidableEq β] : DecidableEq (Except α β) :=
  fun x y =>
    match x, y with
    | Except.ok a, Except.ok b =>
        if h : a = b then Decidable.isTrue (h ▸ rfl)
        else Decidable.isFalse (fun hc => h (Except.ok.inj hc))
    | Except.error a, Except.error b =>
        if h : a = b then Decidable.isTrue (h ▸ rfl)
        else Decidable.isFalse (fun hc => h (Except.error.inj hc))
    | Except.ok _, Except.error _ => Decidable.isFalse (fun hc => Except.noConfusion hc)
    | Except.error _, Except.ok _ => Decidable.isFalse (fun hc => Except.noConfusion hc)

/-- Observable outcome of one `log` call: the returned `Result`, the console
lines written (sink, line text including the trailing newline), the file
appends performed (path, line text including the trailing newline), and the
global state after the call. -/
structure LogOutcome where
  state : GlobalState
  result : Except IOError String
  consoleWrites : List (Sink × String)
  fileWrites : List (String × String)
deriving DecidableEq, Repr

/-- The early-return filtering `match level` block of `log` (lines 85-102 of
`src/lib.rs`): `true` when the call returns `Ok("")` without emitting. -/
def suppresses (level : LogLevel) (t : LogType) : Bool :=
  match level with
  | LogLevel.ErrorsOnly => t != LogType.Error
  | LogLevel.Default => t == LogType.Debug || t == LogType.Info
  | LogLevel.Debug => t == LogType.Info
  | _ => false

/-- `log` from `src/lib.rs`: resolve the effective path (override if provided,
else the global default), format the message with the type signifier and the
timestamp, return `Ok("")` early when the level suppresses the type, otherwise
print to stderr for `Error` and stdout for all other types, then append the
line to the effective path when it is non-empty, propagating any open/write
failure as the error result. -/
def log (message : String) (t : LogType) (p : Option String)
    (st : GlobalState) (env : Env) : LogOutcome :=
  let default_path := st.path
  let path := p.getD default_path
  let formatted_timestamp := env.now.format
  let formatted_message :=
    "[" ++ t.display ++ "] " ++ formatted_timestamp ++ " -> " ++ message
  let level := st.level
  if suppresses level t then
    { state := st, result := Except.ok "", consoleWrites := [], fileWrites := [] }
  else
    let consoleWrites : List (Sink × String) :=
      match t with
      | LogType.Error => [(Sink.stderr, formatted_message ++ "\n")]
      | _ => [(Sink.stdout, formatted_message ++ "\n")]
    let fileOutcome : Except IOError String × List (String × String) :=
      if path != "" then
        match env.openResult path with
        | some e => (Except.error e, [])
        | none =>
          match env.writeResult path with
          | some e => (Except.error e, [])
          | none => (Except.ok formatted_message, [(path, formatted_message ++ "\n")])
      else
        (Except.ok formatted_message, [])
    { state := st, result := fileOutcome.fst, consoleWrites := consoleWrites,
      fileWrites := fileOutcome.snd }

/-- The filtering table of spec section 4.1, transcribed from the spec's words
for comparison against the filtering decision of `log`: Verbose emits all four
types, Debug emits all but Info, Default emits only Warning and Error,
ErrorsOnly emits only Error. -/
def shouldEmitSpec : LogLevel → LogType → Bool
  | LogLevel.Verbose, _ => true
  | LogLevel.Debug, LogType.Info => false
  | LogLevel.Debug, _ => true
  | LogLevel.Default, LogType.Warning => true
  | LogLevel.Default, LogType.Error => true
  | LogLevel.Default, _ => false
  | LogLevel.ErrorsOnly, LogType.Error => true
  | LogLevel.ErrorsOnly, _ => false

/-- The emission decision of the code, as a predicate on (level, type): the
negation of the early-return filter inside `log`. -/
def emitsAt (level : LogLevel) (t : LogType) : Bool :=
  !(suppresses level t)

/-- A sample environment whose file operations all succeed. -/
def envSample : Env :=
  { now := { year := 2024, month := 2, day := 21, hour := 12, minute := 5, second := 51 },
    openResult := fun _ => none,
    writeResult := fun _ => none }

/-- A sample environment where opening any file sink fails. -/
def envFail : Env :=
  { now := { year := 2024, month := 2, day := 21, hour := 12, minute := 5, second := 51 },
    openResult := fun _ => some { msg := "permission denied" },
    writeResult := fun _ => none }

/-- The line `log` carries in its formatted message:
`"[TYPE] YYYY-MM-DD HH:MM:SS -> message"`. -/
def formattedLine (m : String) (t : LogType) (env : Env) : String :=
  "[" ++ t.display ++ "] " ++ env.now.format ++ " -> " ++ m

lemma log_consoleWrites (m : String) (t : LogType) (p : Option String)
    (st : GlobalState) (env : Env) :
    (log m t p st env).consoleWrites =
      if suppresses st.level t then []
      else [((if t == LogType.Error then Sink.stderr else Sink.stdout),
             formattedLine m t env ++ "\n")] := by
  by_cases h : suppresses st.level t = true
  · simp [log, h]
  · cases t <;> simp [log, h, formattedLine] <;> decide

lemma log_fileWrites (m : String) (t : LogType) (p : Option String)
    (st : GlobalState) (env : Env) :
    (log m t p st env).fileWrites =
      if suppresses st.level t then []
      else if p.getD st.path != "" then
        match env.openResult (p.getD st.path) with
        | some _ => []
        | none =>
          match env.writeResult (p.getD st.path) with
          | some _ => []
          | none => [(p.getD st.path, formattedLine m t env ++ "\n")]
      else [] := by
  by_cases h : suppresses st.level t
  · simp [log, h]
  · simp only [log, h, Bool.false_eq_true, if_false, formattedLine]
    by_cases hp : (p.getD st.path != "") = true <;>
      cases hop : env.openResult (p.getD st.path) <;>
        cases hwr : env.writeResult (p.getD st.path) <;>
          simp [hp, hop, hwr]

lemma log_result (m : String) (t : LogType) (p : Option String)
    (st : GlobalState) (env : Env) :
    (log m t p st env).result =
      if suppresses st.level t then Except.ok ""
      else if p.getD st.path != "" then
        match env.openResult (p.getD st.path) with
        | some e => Except.error e
        | none =>
          match env.writeResult (p.getD st.path) with
          | some e => Except.error e
          | none => Except.ok (formattedLine m t env)
      else Except.ok (formattedLine m t env) := by
  by_cases h : suppresses st.level t
  · simp [log, h]
  · simp only [log, h, Bool.false_eq_true, if_false, formattedLine]
    by_cases hp : (p.getD st.path != "") = true <;>
      cases hop : env.openResult (p.getD st.path) <;>
        cases hwr : env.writeResult (p.getD st.path) <;>
          simp [hp, hop, hwr]

/-- C1: For every (LogLevel, LogType) pair, the filtering decision of `log`
(whether a console line is emitted) matches exactly the table in spec section
4.1: Verbose emits all four types; Debug emits Debug, Warning and Error but
suppresses Info; Default emits Warning and Error but suppresses Info and
Debug; ErrorsOnly emits only Error. -/
theorem log_filter_matches_spec_table (m : String) (t : LogType) (p : Option String)
    (st : GlobalState) (env : Env) :
    (log m t p st env).consoleWrites ≠ [] ↔ shouldEmitSpec st.level t = true := by
  rw [log_consoleWrites]
  obtain ⟨level, path⟩ := st
  cases level <;> cases t <;> simp [suppresses, shouldEmitSpec] <;> decide

/-- C2: For every message, type and override path, when the current level
suppresses the given type, `log` returns `Ok("")`, performs no console write
and no file write, and leaves the state unchanged — no error is reported. -/
theorem log_suppressed_no_effects (m : String) (t : LogType) (p : Option String)
    (st : GlobalState) (env : Env) (h : suppresses st.level t = true) :
    log m t p st env =
      { state := st, result := Except.ok "", consoleWrites := [], fileWrites := [] } := by
  simp [log, h]

theorem log_suppressed_no_effects_witness :
    log "x" LogType.Info none initialState envSample =
      { state := initialState, result := Except.ok "", consoleWrites := [],
        fileWrites := [] } :=
  log_suppressed_no_effects "x" LogType.Info none initialState envSample (by decide)

/-- C7: Each setter unconditionally overwrites its field (and, being a total
function, has no failure mode): for every level, `set_level` followed by a
read of the level returns the just-set value, and for every string including
the empty string, `set_path` followed by a read of the path returns the
just-set value. -/
theorem setters_overwrite (l : LogLevel) (pth : String) (st st2 : GlobalState) :
    (set_level l st).level = l ∧ (set_path pth st2).path = pth :=
  ⟨rfl, rfl⟩

/-- C8: The set of LogTypes emitted at each level nests monotonically:
emitted under ErrorsOnly implies emitted under Default, under Default implies
under Debug, under Debug implies under Verbose; Error is emitted at all four
levels, and the Debug level still suppresses Info. -/
theorem emission_nesting (t : LogType) :
    (emitsAt LogLevel.ErrorsOnly t = true → emitsAt LogLevel.Default t = true) ∧
    (emitsAt LogLevel.Default t = true → emitsAt LogLevel.Debug t = true) ∧
    (emitsAt LogLevel.Debug t = true → emitsAt LogLevel.Verbose t = true) ∧
    emitsAt LogLevel.Verbose LogType.Error = true ∧
    emitsAt LogLevel.Debug LogType.Error = true ∧
    emitsAt LogLevel.Default LogType.Error = true ∧
    emitsAt LogLevel.ErrorsOnly LogType.Error = true ∧
    emitsAt LogLevel.Debug LogType.Info = false := by
  cases t <;> decide

theorem emission_nesting_witness : emitsAt LogLevel.Debug LogType.Warning = true :=
  (emission_nesting LogType.Warning).2.1 (by decide)

/-- C9: At process start the global level is `Default` and the global path is
the empty string, so a first `log` call with no override path performs no file
write whatever the message, type or environment. -/
theorem initial_state_no_file_sink (m : String) (t : LogType) (env : Env) :
    initialState.level = LogLevel.Default ∧ initialState.path = "" ∧
    (log m t none initialState env).fileWrites = [] := by
  refine ⟨rfl, rfl, ?_⟩
  rw [log_fileWrites]
  simp [initialState]

/-- C10: For every call to `log`, whatever the arguments, the filtering
outcome, or the success or failure of the file write, the global level and
path are unchanged after the call: `log` never mutates the shared state. -/
theorem log_preserves_globals (m : String) (t : LogType) (p : Option String)
    (st : GlobalState) (env : Env) :
    (log m t p st env).state = st := by
  by_cases h : suppresses st.level t <;> simp [log, h]

/-- C3: For every call to `log`, every file write targets the effective path —
the override argument when provided, the configured global path otherwise —
and when the effective path is empty (in particular for an explicit
empty-string override, which means "no file sink" rather than a fallback to
the default) no file write happens at all; hence a call with `Some(Q)` writes
only to `Q`, never to the global default path. -/
theorem log_writes_only_effective_path (m : String) (t : LogType) (p : Option String)
    (st : GlobalState) (env : Env) :
    (∀ w ∈ (log m t p st env).fileWrites, w.fst = p.getD st.path) ∧
    (p.getD st.path = "" → (log m t p st env).fileWrites = []) := by
  constructor
  · intro w hw
    rw [log_fileWrites] at hw
    split at hw
    · exact absurd hw (List.not_mem_nil w)
    · split at hw
      · split at hw
        · exact absurd hw (List.not_mem_nil w)
        · split at hw
          · exact absurd hw (List.not_mem_nil w)
          · rw [List.mem_singleton] at hw
            rw [hw]
      · exact absurd hw (List.not_mem_nil w)
  · intro hp
    rw [log_fileWrites, hp]
    simp

theorem log_writes_only_effective_path_witness :
    (log "x" LogType.Error (some "") initialState envSample).fileWrites = [] :=
  (log_writes_only_effective_path "x" LogType.Error (some "") initialState
    envSample).2 rfl

/-- C4: When `log` fails, the failure is an I/O error from opening/creating or
writing the file sink, propagated unchanged as the error result; no line is
appended to the file, the console write already emitted stands (it is not
rolled back), and the effective path was necessarily non-empty. -/
theorem log_error_from_file_sink (m : String) (t : LogType) (p : Option String)
    (st : GlobalState) (env : Env) (e : IOError)
    (h : (log m t p st env).result = Except.error e) :
    (log m t p st env).fileWrites = [] ∧
    (log m t p st env).consoleWrites ≠ [] ∧
    p.getD st.path ≠ "" ∧
    (env.openResult (p.getD st.path) = some e ∨
      (env.openResult (p.getD st.path) = none ∧
        env.writeResult (p.getD st.path) = some e)) := by
  rw [log_result] at h
  rw [log_fileWrites, log_consoleWrites]
  by_cases hsup : suppresses st.level t = true
  · rw [if_pos hsup] at h
    exact absurd h (by simp)
  · rw [if_neg hsup] at h
    simp only [if_neg hsup]
    by_cases hp : (p.getD st.path != "") = true
    · rw [if_pos hp] at h
      simp only [if_pos hp]
      cases hop : env.openResult (p.getD st.path) with
      | some e2 =>
        rw [hop] at h
        have he : e2 = e := Except.error.inj h
        exact ⟨rfl, by simp, by simpa using hp, Or.inl (by rw [he])⟩
      | none =>
        rw [hop] at h
        cases hwr : env.writeResult (p.getD st.path) with
        | some e2 =>
          rw [hwr] at h
          have he : e2 = e := Except.error.inj h
          exact ⟨rfl, by simp, by simpa using hp, Or.inr ⟨rfl, by rw [he]⟩⟩
        | none =>
          rw [hwr] at h
          exact absurd h (by simp)
    · rw [if_neg hp] at h
      exact absurd h (by simp)

theorem log_error_from_file_sink_witness :
    (log "x" LogType.Error (some "q") initialState envFail).fileWrites = [] :=
  (log_error_from_file_sink "x" LogType.Error (some "q") initialState envFail
    { msg := "permission denied" } (by decide)).1

/-- C5: Every successful, non-suppressed `log` call returns the formatted
message `"[TYPE] YYYY-MM-DD HH:MM:SS -> message"` built from the type's
uppercase display name, the timestamp of the call, and the message verbatim;
the same line, newline-terminated, is exactly what is appended to the file
sink when one is active (and nothing is appended when none is). -/
theorem log_success_formats (m : String) (t : LogType) (p : Option String)
    (st : GlobalState) (env : Env) (s : String)
    (h : (log m t p st env).result = Except.ok s) (hs : s ≠ "") :
    s = "[" ++ t.display ++ "] " ++ env.now.format ++ " -> " ++ m ∧
    (t.display = "INFO" ∨ t.display = "DEBUG" ∨ t.display = "WARNING" ∨
      t.display = "ERROR") ∧
    (log m t p st env).fileWrites =
      (if p.getD st.path = "" then [] else [(p.getD st.path, s ++ "\n")]) := by
  rw [log_result] at h
  rw [log_fileWrites]
  by_cases hsup : suppresses st.level t = true
  · rw [if_pos hsup] at h
    exact absurd (Except.ok.inj h).symm hs
  · rw [if_neg hsup] at h
    simp only [if_neg hsup]
    by_cases hp : (p.getD st.path != "") = true
    · rw [if_pos hp] at h
      simp only [if_pos hp]
      cases hop : env.openResult (p.getD st.path) with
      | some e2 =>
        rw [hop] at h
        exact absurd h (by simp)
      | none =>
        rw [hop] at h
        cases hwr : env.writeResult (p.getD st.path) with
        | some e2 =>
          rw [hwr] at h
          exact absurd h (by simp)
        | none =>
          rw [hwr] at h
          have hsf : s = formattedLine m t env := (Except.ok.inj h).symm
          have hne : p.getD st.path ≠ "" := by simpa using hp
          refine ⟨by rw [hsf]; rfl, ?_, ?_⟩
          · cases t <;> simp [LogType.display]
          · rw [hsf, if_neg hne]
    · rw [if_neg hp] at h
      have hsf : s = formattedLine m t env := (Except.ok.inj h).symm
      have heq : p.getD st.path = "" := by simpa using hp
      refine ⟨by rw [hsf]; rfl, ?_, ?_⟩
      · cases t <;> simp [LogType.display]
      · rw [if_neg hp, if_pos heq]

theorem log_success_formats_witness :
    "[WARNING] 2024-02-21 12:05:51 -> x" =
      "[" ++ LogType.Warning.display ++ "] " ++ envSample.now.format ++ " -> " ++ "x" :=
  (log_success_formats "x" LogType.Warning none
    { level := LogLevel.Default, path := "app.log" } envSample
    "[WARNING] 2024-02-21 12:05:51 -> x" (by decide) (by decide)).1

/-- C6: For every emitted message, `log` writes the formatted line to stderr
exactly when the type is Error and to stdout for Info, Debug and Warning, as
one newline-terminated console line. -/
theorem log_console_routing (m : String) (t : LogType) (p : Option String)
    (st : GlobalState) (env : Env) (h : suppresses st.level t = false) :
    (log m t p st env).consoleWrites =
      [((if t = LogType.Error then Sink.stderr else Sink.stdout),
        formattedLine m t env ++ "\n")] := by
  rw [log_consoleWrites]
  cases t <;> simp [h] <;> decide

theorem log_console_routing_witness :
    (log "x" LogType.Error none initialState envSample).consoleWrites =
      [((if LogType.Error = LogType.Error then Sink.stderr else Sink.stdout),
        formattedLine "x" LogType.Error envSample ++ "\n")] :=
  log_console_routing "x" LogType.Error none initialState envSample (by decide)

end SwLogger
